import Mathlib

/-!
# QuickBackend — verification of the spec against `src/server.js`

Shallow embedding of the QuickText backend (Express + Supabase).  The store
(the `public.messages` table of `schema.sql`) is a list of rows; Supabase
query-builder calls are modelled as pure list operations; each HTTP request
executes atomically at a single instant `now` (Unix milliseconds), which also
stands for the store's `now()` default on `createdAt`.  Store read/write
operations performed by a handler are recorded in an `Op` trace so that
"without touching the store" claims are statable.  Store communication
failures (the `existsErr` / generic-error branches of the handlers) are not
modelled: the only insert failure is the uniqueness-constraint rejection.
-/

namespace QuickBackend

/-- A row of `public.messages` (`src/unnamed/part_000`).  Timestamps are
Unix milliseconds. -/
structure Row where
  id : Nat
  topic : String
  author : String
  code : String
  message : String
  createdAt : Nat
  expiresAt : Nat
deriving Repr, DecidableEq

/-- The `messages` table. -/
abbrev Store := List Row

/-- A store access performed by a handler: a read query or a write attempt. -/
inductive Op where
  | read
  | write
deriving Repr, DecidableEq

/-- `supabase.from('messages').select('id').eq('code', c).maybeSingle()`
(`src/server.js:76-77`): the row with the given code, if any. -/
def selectByCode (s : Store) (c : String) : Option Row :=
  s.find? (fun r => r.code == c)

/-- The next store-assigned identity value (`id bigint generated always as
identity`). -/
def nextId (s : Store) : Nat :=
  (s.map Row.id).foldr max 0 + 1

/-- `supabase.from('messages').insert(...)` against the unique constraint on
`code` (`src/unnamed/part_000` line 6): rejected iff some existing row
already bears the candidate code. -/
def insertRow (s : Store) (r : Row) : Except Unit Store :=
  if s.any (fun r0 => r0.code == r.code) then .error () else .ok (s ++ [r])

/-- The 62-symbol code alphabet (`src/server.js:43`). -/
def alphabet : String :=
  "0123456789ABCDEFGHIJKLMNOPQRSTUVWXYZabcdefghijklmnopqrstuvwxyz"

/-- Modelled from the spec: `customAlphabet(alphabet, 7)` from the `nanoid`
library (`src/server.js:44`) — each draw produces 7 symbols, each selected
from the 62-symbol alphabet; `pick i` is the alphabet index drawn for
position `i`. -/
def nanoidGen (pick : Fin 7 → Fin 62) : String :=
  ⟨(List.finRange 7).map fun i =>
    alphabet.data.get (Fin.cast (by decide) (pick i))⟩

/-- Caller-visible outcome of `POST /api/send` (`src/server.js:62-102`). -/
inductive SendOutcome where
  | badRequest (error : String)
  | dbError (error : String)
  | success (id : Nat) (code : String) (expiresAt : Nat)
deriving Repr, DecidableEq

/-- HTTP status of a send outcome. -/
def SendOutcome.status : SendOutcome → Nat
  | .badRequest _ => 400
  | .dbError _ => 500
  | .success _ _ _ => 200

/-- The collision-retry loop of `app.post('/api/send')`
(`src/server.js:73-85`), with the remaining loop iterations
(`5 - attempts`) as fuel; `k` indexes the current candidate in the draw
stream `codes` (`codes 0` is the initial `nanoid()` draw of line 73).
Returns the index of the candidate the loop exits with, `true` iff the exit
was the `break` (a collision check found the candidate absent), and the
trace of read queries performed.  When the fuel runs out the loop exits with
the freshly drawn candidate `codes k` having performed no check on it. -/
def loopGo (s : Store) (codes : Nat → String) : Nat → Nat → Nat × Bool × List Op
  | k, 0 => (k, false, [])
  | k, fuel + 1 =>
    match selectByCode s (codes k) with
    | none => (k, true, [.read])
    | some _ =>
      ((loopGo s codes (k + 1) fuel).1, (loopGo s codes (k + 1) fuel).2.1,
       .read :: (loopGo s codes (k + 1) fuel).2.2)

/-- 7 days in milliseconds (`src/server.js:87`). -/
def sevenDaysMs : Nat := 7 * 24 * 60 * 60 * 1000

/-- The body of `app.post('/api/send')` (`src/server.js:62-102`): validate,
run the collision loop, compute `expires_at = now + 7 days`, then insert;
an insert rejection is answered with the 500 `Failed to save message`.
Returns the outcome, the resulting store, and the trace of store accesses. -/
def sendHandler (s : Store) (codes : Nat → String) (now : Nat)
    (topic author message : String) : SendOutcome × Store × List Op :=
  if topic = "" ∨ author = "" ∨ message = "" then
    (.badRequest "Missing topic/author/message", s, [])
  else if message.length > 10000 then
    (.badRequest "Message too long (max 10k chars)", s, [])
  else
    match insertRow s { id := nextId s, topic := topic, author := author,
                        code := codes (loopGo s codes 0 5).1, message := message,
                        createdAt := now, expiresAt := now + sevenDaysMs } with
    | .error _ =>
      (.dbError "Failed to save message", s, (loopGo s codes 0 5).2.2 ++ [.write])
    | .ok s2 =>
      (.success (nextId s) (codes (loopGo s codes 0 5).1) (now + sevenDaysMs),
       s2, (loopGo s codes 0 5).2.2 ++ [.write])

/-- Caller-visible outcome of `POST /api/receive` (`src/server.js:105-127`),
including the rate-limiter rejection payload (`src/server.js:47-56`). -/
inductive ReceiveOutcome where
  | rateLimited (success : Bool) (warning : String)
  | badRequest (error : String)
  | notFound (error : String)
  | success (id : Nat) (topic author message : String) (createdAt expiresAt : Nat)
deriving Repr, DecidableEq

/-- HTTP status of a receive outcome (`express-rate-limit` rejects with its
default 429 status). -/
def ReceiveOutcome.status : ReceiveOutcome → Nat
  | .rateLimited _ _ => 429
  | .badRequest _ => 400
  | .notFound _ => 404
  | .success _ _ _ _ _ _ => 200

/-- The body of `app.post('/api/receive')` (`src/server.js:106-126`): missing
code → 400; otherwise one read query `.eq('code', code).gt('expires_at',
now).single()` — `.single()` yields data only when exactly one row matches,
and both the no-data and the error case render as the same 404. -/
def receiveHandler (s : Store) (now : Nat) (code : String) :
    ReceiveOutcome × List Op :=
  if code = "" then (.badRequest "Missing code", [])
  else
    match s.filter (fun r => r.code == code && decide (now < r.expiresAt)) with
    | [r] => (.success r.id r.topic r.author r.message r.createdAt r.expiresAt, [.read])
    | _ => (.notFound "Invalid or expired code", [.read])

/-- `windowMs: 60 * 1000` (`src/server.js:48`). -/
def windowMs : Nat := 60 * 1000

/-- `max: 5` (`src/server.js:49`). -/
def maxHits : Nat := 5

/-- Per-client rate-limiter record: hit count in the current window and the
instant the window expires. -/
structure LimiterEntry where
  client : String
  count : Nat
  resetAt : Nat
deriving Repr, DecidableEq

/-- The rate limiter's in-memory state, keyed by client address. -/
abbrev Limiter := List LimiterEntry

/-- The rejection payload configured at `src/server.js:52-55`. -/
def limitWarning : String :=
  "You have exceeded the limit of 5 attempts per minute. Please wait before trying again."

/-- Modelled from the spec: the `express-rate-limit` middleware
(`receiveLimiter`, `src/server.js:47-56`) counts hits per client address in
a fixed window of `windowMs`; a hit on an elapsed window starts a fresh
window with count 1, otherwise the client's count is incremented.  Returns
the count charged to this request and the updated limiter state. -/
def limiterHit (l : Limiter) (client : String) (now : Nat) : Nat × Limiter :=
  match l.find? (fun e => e.client == client) with
  | some e =>
    if now < e.resetAt then
      (e.count + 1,
       l.map (fun e0 => if e0.client == client then { e0 with count := e.count + 1 } else e0))
    else
      (1, { client := client, count := 1, resetAt := now + windowMs } ::
        l.filter (fun e0 => !(e0.client == client)))
  | none => (1, { client := client, count := 1, resetAt := now + windowMs } :: l)

/-- `POST /api/receive` with its middleware chain
(`app.post('/api/receive', receiveLimiter, ...)`, `src/server.js:105`): the
limiter runs first and, when the charged count exceeds `maxHits`, answers
with the rejection payload without invoking the handler — so without any
store access. -/
def receiveRoute (l : Limiter) (s : Store) (client : String) (now : Nat)
    (code : String) : ReceiveOutcome × Limiter × List Op :=
  if (limiterHit l client now).1 > maxHits then
    (.rateLimited false limitWarning, (limiterHit l client now).2, [])
  else
    ((receiveHandler s now code).1, (limiterHit l client now).2,
     (receiveHandler s now code).2)

/-- JavaScript truthiness of `ADMIN_KEY` / a header value: an unset value
(`undefined`, modelled `none`) and the empty string are falsy. -/
def truthy : Option String → Bool
  | none => false
  | some v => v != ""

/-- The `requireAdmin` middleware (`src/server.js:130-136`): the request
passes iff `ADMIN_KEY` is truthy and the `x-admin-key` header strictly
equals it (`!ADMIN_KEY || key !== ADMIN_KEY` → 401).  In JavaScript a
missing header and an unset `ADMIN_KEY` are both `undefined` and would
compare equal — the `!ADMIN_KEY` guard is what rejects that case. -/
def requireAdmin (adminKey header : Option String) : Bool :=
  truthy adminKey && header == adminKey

/-- Outcome of `GET /api/admin/messages` (`src/server.js:139-146`). -/
inductive AdminListOutcome where
  | unauthorized (error : String)
  | ok (rows : List Row)
deriving Repr, DecidableEq

/-- Outcome of `DELETE /api/admin/messages/:id` (`src/server.js:149-154`). -/
inductive AdminDeleteOutcome where
  | unauthorized (error : String)
  | ok
deriving Repr, DecidableEq

/-- Insert a row into a list sorted by `createdAt` descending. -/
def insertByCreatedDesc (r : Row) : Store → Store
  | [] => [r]
  | x :: t =>
    if x.createdAt ≤ r.createdAt then r :: x :: t
    else x :: insertByCreatedDesc r t

/-- `.order('created_at', { ascending: false })` (`src/server.js:143`). -/
def sortByCreatedDesc : Store → Store
  | [] => []
  | x :: t => insertByCreatedDesc x (sortByCreatedDesc t)

/-- `GET /api/admin/messages` behind `requireAdmin`
(`src/server.js:139-146`): 401 before any store access on auth failure,
otherwise the full table ordered by `created_at` descending. -/
def adminList (adminKey header : Option String) (s : Store) :
    AdminListOutcome × List Op :=
  if requireAdmin adminKey header then (.ok (sortByCreatedDesc s), [.read])
  else (.unauthorized "Unauthorized", [])

/-- `DELETE /api/admin/messages/:id` behind `requireAdmin`
(`src/server.js:149-154`): 401 before any store access on auth failure;
otherwise `delete().eq('id', id)` removes the matching rows (zero or more)
and the route answers `{ok:true}` unconditionally. -/
def adminDelete (adminKey header : Option String) (s : Store) (id : Nat) :
    AdminDeleteOutcome × Store × List Op :=
  if requireAdmin adminKey header then
    (.ok, s.filter (fun r => !(r.id == id)), [.write])
  else (.unauthorized "Unauthorized", s, [])

/-- Store codes are pairwise distinct — the invariant the unique constraint
on `messages.code` maintains. -/
def codesUnique (s : Store) : Prop :=
  s.Pairwise (fun a b => a.code ≠ b.code)

instance : DecidablePred codesUnique := fun s => by
  unfold codesUnique; infer_instance

/-- A fixed index choice for concrete `nanoidGen` executions: always the
first alphabet symbol. -/
def pickB : Nat → Fin 7 → Fin 62 := fun _ _ => ⟨0, by decide⟩

/-- A concrete draw stream produced by the modelled `nanoid` generator. -/
def codesB : Nat → String := fun k => nanoidGen (pickB k)

/-- A fixed draw stream used for concrete executions: six pairwise distinct
7-character candidates. -/
def codesA : Nat → String
  | 0 => "AAAAAA0"
  | 1 => "AAAAAA1"
  | 2 => "AAAAAA2"
  | 3 => "AAAAAA3"
  | 4 => "AAAAAA4"
  | _ => "AAAAAA5"

/-- A row fixture bearing a given id and code. -/
def mkRow (id : Nat) (c : String) : Row :=
  { id := id, topic := "t0", author := "a0", code := c,
    message := "m0", createdAt := 0, expiresAt := 1000 }

/-- A store in which the first five candidates of `codesA` all collide but
the sixth is free. -/
def sC1 : Store :=
  [mkRow 1 "AAAAAA0", mkRow 2 "AAAAAA1", mkRow 3 "AAAAAA2",
   mkRow 4 "AAAAAA3", mkRow 5 "AAAAAA4"]

/-- A store in which all six candidates of `codesA` collide. -/
def sC2 : Store := sC1 ++ [mkRow 6 "AAAAAA5"]

/-! ## Helper lemmas -/

theorem codesUnique_eq_of_mem {s : Store} (hu : codesUnique s)
    {x r : Row} (hx : x ∈ s) (hr : r ∈ s) (hcode : x.code = r.code) :
    x = r := by
  induction s with
  | nil => cases hx
  | cons a t ih =>
    rcases List.pairwise_cons.mp hu with ⟨ha, ht⟩
    rcases List.mem_cons.mp hx with hx | hx <;>
      rcases List.mem_cons.mp hr with hr | hr
    · exact hx.trans hr.symm
    · exact absurd hcode (hx ▸ ha r hr)
    · exact absurd hcode.symm (hr ▸ ha x hx)
    · exact ih ht hx hr

theorem nanoidGen_length (pick : Fin 7 → Fin 62) :
    (nanoidGen pick).length = 7 := by
  have h : (nanoidGen pick).length =
      ((List.finRange 7).map fun i =>
        alphabet.data.get (Fin.cast (by decide) (pick i))).length := rfl
  rw [h, List.length_map, List.length_finRange]

theorem nanoidGen_chars (pick : Fin 7 → Fin 62) :
    ∀ ch ∈ (nanoidGen pick).data, ch ∈ alphabet.data := by
  intro ch hch
  simp only [nanoidGen, List.mem_map] at hch
  obtain ⟨i, _, hi⟩ := hch
  rw [← hi]
  exact List.get_mem _ _ _

/-- When every one of the first `fuel` candidates starting at index `k`
collides, the loop runs its checks to exhaustion and exits with the next
fresh candidate, flagged as not pre-checked. -/
theorem loopGo_exhaust (s : Store) (codes : Nat → String) :
    ∀ fuel k, (∀ j, j < fuel → (selectByCode s (codes (k + j))).isSome = true) →
      loopGo s codes k fuel = (k + fuel, false, List.replicate fuel .read) := by
  intro fuel
  induction fuel with
  | zero => intro k _; simp [loopGo]
  | succ n ih =>
    intro k h
    have h0 : (selectByCode s (codes k)).isSome = true := by
      have := h 0 (Nat.succ_pos n); simpa using this
    obtain ⟨r, hr⟩ := Option.isSome_iff_exists.mp h0
    have ih' : loopGo s codes (k + 1) n = (k + 1 + n, false, List.replicate n .read) := by
      refine ih (k + 1) (fun j hj => ?_)
      rw [show k + 1 + j = k + (j + 1) by omega]
      exact h (j + 1) (by omega)
    simp only [loopGo, hr, ih', List.replicate_succ]
    refine Prod.ext ?_ (Prod.ext rfl rfl)
    omega

/-- A successful send pins down the response fields and the resulting
store: the response id is the store-assigned one, the code is the one the
collision loop exited with, the expiry is `now + 7` days, and the store
gained exactly the corresponding row. -/
theorem sendHandler_success_shape (s : Store) (codes : Nat → String)
    (now : Nat) (t a m : String) (i : Nat) (c : String) (e : Nat)
    (hs : (sendHandler s codes now t a m).1 = .success i c e) :
    i = nextId s ∧ c = codes (loopGo s codes 0 5).1 ∧ e = now + sevenDaysMs ∧
    (sendHandler s codes now t a m).2.1 =
      s ++ [{ id := i, topic := t, author := a, code := c, message := m,
              createdAt := now, expiresAt := e }] := by
  by_cases hA : t = "" ∨ a = "" ∨ m = ""
  · rw [sendHandler, if_pos hA] at hs
    simp at hs
  · by_cases hB : m.length > 10000
    · rw [sendHandler, if_neg hA, if_pos hB] at hs
      simp at hs
    · by_cases hC : s.any (fun r0 => r0.code ==
        codes (loopGo s codes 0 5).1) = true
      · rw [sendHandler, if_neg hA, if_neg hB] at hs
        rw [insertRow] at hs
        simp only [hC, if_pos] at hs
        simp at hs
      · have hC' : s.any (fun r0 => r0.code ==
            codes (loopGo s codes 0 5).1) = false := by
          simpa using hC
        rw [sendHandler, if_neg hA, if_neg hB] at hs ⊢
        rw [insertRow] at hs ⊢
        simp only [hC', Bool.false_eq_true, if_false] at hs ⊢
        obtain ⟨h1, h2, h3⟩ := SendOutcome.success.inj hs
        exact ⟨h1.symm, h2.symm, h3.symm, by rw [← h1, ← h2, ← h3]⟩

/-! ## Claim theorems -/

/-- **C3** — the receive lookup is expiry-gated: a successful receive only
ever reports a row whose `expiresAt` is strictly greater than `now`, and for
a code whose row exists in the (code-unique) store but has `expiresAt ≤ now`
the handler answers the 404 `NotFoundError` "Invalid or expired code", never
the message. -/
theorem receive_expiry_gated (s : Store) (now : Nat) (code : String)
    (hu : codesUnique s) (hne : code ≠ "") :
    (∀ i t a m c e, (receiveHandler s now code).1 = .success i t a m c e →
      now < e) ∧
    (∀ r ∈ s, r.code = code → r.expiresAt ≤ now →
      (receiveHandler s now code).1 = .notFound "Invalid or expired code") := by
  constructor
  · intro i t a m c e hsucc
    unfold receiveHandler at hsucc
    rw [if_neg hne] at hsucc
    split at hsucc
    · rename_i r heq
      simp only [Prod.fst] at hsucc
      cases hsucc
      have hr : r ∈ s.filter (fun r => r.code == code && decide (now < r.expiresAt)) := by
        rw [heq]; exact List.mem_singleton.mpr rfl
      have := List.of_mem_filter hr
      simp only [Bool.and_eq_true, decide_eq_true_eq] at this
      exact this.2
    · simp at hsucc
  · intro r hr hcode hexp
    unfold receiveHandler
    rw [if_neg hne]
    have hfilt : s.filter (fun r => r.code == code && decide (now < r.expiresAt)) = [] := by
      rw [List.filter_eq_nil_iff]
      intro x hx
      simp only [Bool.and_eq_true, beq_iff_eq, decide_eq_true_eq, not_and]
      intro hxc
      have hxr : x = r := codesUnique_eq_of_mem hu hx hr (hxc.trans hcode.symm)
      subst hxr
      omega
    rw [hfilt]

/-- Witness for C3: a store holding the single row for code `AAAAAA0` whose
expiry instant 1000 has just been reached answers 404. -/
theorem receive_expiry_gated_witness :
    (receiveHandler [mkRow 1 "AAAAAA0"] 1000 "AAAAAA0").1 =
      .notFound "Invalid or expired code" :=
  (receive_expiry_gated [mkRow 1 "AAAAAA0"] 1000 "AAAAAA0" (by decide)
      (by decide)).2 (mkRow 1 "AAAAAA0") (List.mem_singleton.mpr rfl) rfl
    (by decide)

/-- **C4** — a receive for a code that exists only as expired rows and a
receive for a code that never existed produce the same caller-visible
response: the same 404 status and the same `Invalid or expired code`
payload. -/
theorem receive_code_existence_hidden (s1 s2 : Store) (now : Nat) (c : String)
    (hne : c ≠ "")
    (_hex : ∃ r ∈ s1, r.code = c)
    (h1 : ∀ r ∈ s1, r.code = c → r.expiresAt ≤ now)
    (h2 : ∀ r ∈ s2, r.code ≠ c) :
    (receiveHandler s1 now c).1 = (receiveHandler s2 now c).1 ∧
    (receiveHandler s1 now c).1 = .notFound "Invalid or expired code" ∧
    ((receiveHandler s1 now c).1).status = 404 := by
  have hf1 : s1.filter (fun r => r.code == c && decide (now < r.expiresAt)) = [] := by
    rw [List.filter_eq_nil_iff]
    intro x hx
    simp only [Bool.and_eq_true, beq_iff_eq, decide_eq_true_eq, not_and]
    intro hxc
    have := h1 x hx hxc
    omega
  have hf2 : s2.filter (fun r => r.code == c && decide (now < r.expiresAt)) = [] := by
    rw [List.filter_eq_nil_iff]
    intro x hx
    simp only [Bool.and_eq_true, beq_iff_eq, decide_eq_true_eq, not_and]
    intro hxc
    exact absurd hxc (h2 x hx)
  unfold receiveHandler
  simp only [if_neg hne]
  rw [hf1, hf2]
  exact ⟨rfl, rfl, rfl⟩

/-- Witness for C4: the store whose only row for `AAAAAA0` expired at 1000
and the empty store answer a receive at time 5000 identically. -/
theorem receive_code_existence_hidden_witness :
    (receiveHandler [mkRow 1 "AAAAAA0"] 5000 "AAAAAA0").1 =
      (receiveHandler ([] : Store) 5000 "AAAAAA0").1 :=
  (receive_code_existence_hidden [mkRow 1 "AAAAAA0"] [] 5000 "AAAAAA0"
      (by decide) ⟨mkRow 1 "AAAAAA0", List.mem_singleton.mpr rfl, rfl⟩
      (by decide) (by decide)).1

/-- **C5** — every message created by a successful send is stored with
`expiresAt = createdAt + 7 * 24 * 60 * 60 * 1000`: the store gains exactly
one row, whose `createdAt` is the request instant and whose `expiresAt` is
that instant plus 7 days, and the reported expiry is the stored one. -/
theorem send_expiry_seven_days (s : Store) (codes : Nat → String) (now : Nat)
    (t a m : String) (i : Nat) (c : String) (e : Nat)
    (hs : (sendHandler s codes now t a m).1 = .success i c e) :
    (sendHandler s codes now t a m).2.1 =
      s ++ [{ id := i, topic := t, author := a, code := c, message := m,
              createdAt := now, expiresAt := now + 7 * 24 * 60 * 60 * 1000 }] ∧
    e = now + 7 * 24 * 60 * 60 * 1000 ∧
    (∀ r ∈ (sendHandler s codes now t a m).2.1, r ∉ s →
      r.expiresAt = r.createdAt + 7 * 24 * 60 * 60 * 1000) := by
  obtain ⟨h1, h2, h3, h4⟩ := sendHandler_success_shape s codes now t a m i c e hs
  have he : e = now + 7 * 24 * 60 * 60 * 1000 := by
    rw [h3]; rfl
  subst he
  refine ⟨h4, rfl, ?_⟩
  intro r hr hrs
  rw [h4] at hr
  rcases List.mem_append.mp hr with hr | hr
  · exact absurd hr hrs
  · rw [List.mem_singleton.mp hr]

/-- Witness for C5: a send against the empty store at instant 0 stores the
row with `createdAt = 0` and `expiresAt = 604800000`. -/
theorem send_expiry_seven_days_witness :
    (sendHandler ([] : Store) codesA 0 "t" "a" "hello").2.1 =
      [] ++ [{ id := 1, topic := "t", author := "a", code := "AAAAAA0",
               message := "hello", createdAt := 0,
               expiresAt := 0 + 7 * 24 * 60 * 60 * 1000 }] :=
  (send_expiry_seven_days ([] : Store) codesA 0 "t" "a" "hello" 1 "AAAAAA0"
      604800000 (by decide)).1

/-- **C6** — with non-empty topic, author and message, a 10,000-character
message passes validation (the outcome is never a 400 `ValidationError`),
while a 10,001-character message is rejected with the 400
`Message too long (max 10k chars)` and the request ends with the store
unchanged and no store access performed. -/
theorem send_length_boundary (s : Store) (codes : Nat → String) (now : Nat)
    (t a m10 m11 : String) (ht : t ≠ "") (ha : a ≠ "")
    (h10 : m10.length = 10000) (h11 : m11.length = 10001) :
    (∀ err, (sendHandler s codes now t a m10).1 ≠ .badRequest err) ∧
    sendHandler s codes now t a m11 =
      (.badRequest "Message too long (max 10k chars)", s, []) ∧
    (SendOutcome.badRequest "Message too long (max 10k chars)").status = 400 := by
  have hm10 : m10 ≠ "" := by
    intro h; rw [h] at h10; simp [String.length] at h10
  have hm11 : m11 ≠ "" := by
    intro h; rw [h] at h11; simp [String.length] at h11
  refine ⟨?_, ?_, rfl⟩
  · intro err
    rw [sendHandler, if_neg (by simp [ht, ha, hm10]),
      if_neg (by rw [h10]; omega)]
    split <;> simp
  · rw [sendHandler, if_neg (by simp [ht, ha, hm11]),
      if_pos (by rw [h11]; omega)]

/-- Witness for C6: a 10,000-character message is not rejected as too long;
a 10,001-character one is, leaving the empty store empty with no access
trace. -/
theorem send_length_boundary_witness :
    (sendHandler ([] : Store) codesA 0 "t" "a"
        ⟨List.replicate 10000 'x'⟩).1 ≠
      .badRequest "Message too long (max 10k chars)" ∧
    sendHandler ([] : Store) codesA 0 "t" "a" ⟨List.replicate 10001 'x'⟩ =
      (.badRequest "Message too long (max 10k chars)", [], []) := by
  have e10 : (⟨List.replicate 10000 'x'⟩ : String).length =
      (List.replicate 10000 'x').length := rfl
  have e11 : (⟨List.replicate 10001 'x'⟩ : String).length =
      (List.replicate 10001 'x').length := rfl
  have h := send_length_boundary ([] : Store) codesA 0 "t" "a"
    ⟨List.replicate 10000 'x'⟩ ⟨List.replicate 10001 'x'⟩ (by decide) (by decide)
    (by rw [e10, List.length_replicate]) (by rw [e11, List.length_replicate])
  exact ⟨h.1 _, h.2.1⟩

/-- **C7** — when the draw stream is the configured
`customAlphabet(alphabet, 7)` generator, the code returned by a successful
send has length exactly 7, all its characters belong to the 62-symbol
alphabet, and the stored row bears that same code. -/
theorem send_code_shape (s : Store) (codes : Nat → String)
    (pick : Nat → Fin 7 → Fin 62)
    (hcodes : ∀ k, codes k = nanoidGen (pick k))
    (now : Nat) (t a m : String) (i : Nat) (c : String) (e : Nat)
    (hs : (sendHandler s codes now t a m).1 = .success i c e) :
    c.length = 7 ∧ (∀ ch ∈ c.data, ch ∈ alphabet.data) ∧
    (sendHandler s codes now t a m).2.1 =
      s ++ [{ id := i, topic := t, author := a, code := c, message := m,
              createdAt := now, expiresAt := e }] := by
  obtain ⟨h1, h2, h3, h4⟩ := sendHandler_success_shape s codes now t a m i c e hs
  rw [hcodes] at h2
  exact ⟨h2 ▸ nanoidGen_length _, h2 ▸ nanoidGen_chars _, h4⟩

/-- Witness for C7: with the all-zero index choice the generator draws
`"0000000"` (length 7, alphabet characters only), and the send stores it. -/
theorem send_code_shape_witness :
    ("0000000" : String).length = 7 ∧
    (sendHandler ([] : Store) codesB 0 "t" "a" "hello").2.1 =
      [] ++ [{ id := 1, topic := "t", author := "a", code := "0000000",
               message := "hello", createdAt := 0, expiresAt := 604800000 }] := by
  have h := send_code_shape ([] : Store) codesB pickB (fun _ => rfl) 0 "t" "a"
    "hello" 1 "0000000" 604800000 (by decide)
  exact ⟨h.1, h.2.2⟩

/-- **C1, counterexample** — in the store `sC1` all 5 collision checks find
an existing row (the loop exits exhausted, having read candidates 0–4), yet
the operation does not fail: it succeeds and persists a row whose code
`AAAAAA5` was never pre-checked (`selectByCode` was never run on it — the
trace holds exactly the 5 reads of the colliding candidates). -/
theorem send_collision_exhaustion_counterexample :
    loopGo sC1 codesA 0 5 = (5, false, [.read, .read, .read, .read, .read]) ∧
    (sendHandler sC1 codesA 0 "t" "a" "hello").1 =
      .success 6 "AAAAAA5" 604800000 ∧
    (sendHandler sC1 codesA 0 "t" "a" "hello").2.1 =
      sC1 ++ [{ id := 6, topic := "t", author := "a", code := "AAAAAA5",
                message := "hello", createdAt := 0, expiresAt := 604800000 }] ∧
    selectByCode sC1 "AAAAAA5" = none := by
  refine ⟨by decide, by decide, by decide, by decide⟩

/-- **C1, amended** — when all 5 collision checks find an existing row, the
loop exits exhausted and the handler proceeds to insert the next fresh
candidate `codes 5` without pre-checking it: if that candidate also
collides the request fails with the generic 500 insert error (there is no
`CollisionExhaustedError`), and otherwise the row is persisted and the send
succeeds. -/
theorem send_collision_exhaustion_behavior (s : Store) (codes : Nat → String)
    (now : Nat) (t a m : String) (ht : t ≠ "") (ha : a ≠ "") (hm : m ≠ "")
    (hlen : ¬ m.length > 10000)
    (hcollide : ∀ k, k < 5 → (selectByCode s (codes k)).isSome = true) :
    loopGo s codes 0 5 =
      (5, false, [.read, .read, .read, .read, .read]) ∧
    (s.any (fun r0 => r0.code == codes 5) = true →
      sendHandler s codes now t a m =
        (.dbError "Failed to save message", s,
         [.read, .read, .read, .read, .read, .write])) ∧
    (s.any (fun r0 => r0.code == codes 5) = false →
      sendHandler s codes now t a m =
        (.success (nextId s) (codes 5) (now + sevenDaysMs),
         s ++ [{ id := nextId s, topic := t, author := a, code := codes 5,
                 message := m, createdAt := now,
                 expiresAt := now + sevenDaysMs }],
         [.read, .read, .read, .read, .read, .write])) := by
  have hloop : loopGo s codes 0 5 =
      (5, false, [.read, .read, .read, .read, .read]) := by
    have := loopGo_exhaust s codes 5 0 (fun j hj => by
      have := hcollide j hj; simpa using this)
    simpa [List.replicate] using this
  refine ⟨hloop, ?_, ?_⟩ <;> intro hC <;>
    rw [sendHandler, if_neg (by simp [ht, ha, hm]), if_neg hlen, insertRow] <;>
    simp only [hloop] <;>
    simp [hC]

/-- Witness for the amended C1: in `sC1` the five checked candidates all
collide and the unchecked sixth is free, so the send succeeds and persists
it. -/
theorem send_collision_exhaustion_behavior_witness :
    sendHandler sC1 codesA 0 "t" "a" "hello" =
      (.success (nextId sC1) (codesA 5) (0 + sevenDaysMs),
       sC1 ++ [{ id := nextId sC1, topic := "t", author := "a",
                 code := codesA 5, message := "hello", createdAt := 0,
                 expiresAt := 0 + sevenDaysMs }],
       [.read, .read, .read, .read, .read, .write]) :=
  (send_collision_exhaustion_behavior sC1 codesA 0 "t" "a" "hello"
      (by decide) (by decide) (by decide) (by decide) (by decide)).2.2
    (by decide)

/-- **C2, counterexample** — in the store `sC2` the insert of the loop's
exit candidate `AAAAAA5` is rejected by the uniqueness constraint, and the
issuer does not retry with a new code: it returns the fatal 500
`Failed to save message` to the caller, the store is unchanged, and the
trace shows no further draw or check after the rejected write. -/
theorem send_insert_conflict_counterexample :
    sendHandler sC2 codesA 0 "t" "a" "hello" =
      (.dbError "Failed to save message", sC2,
       [.read, .read, .read, .read, .read, .write]) ∧
    (SendOutcome.dbError "Failed to save message").status = 500 := by
  refine ⟨by decide, rfl⟩

/-- **C2, amended** — a uniqueness-constraint rejection of the insert is
treated as a fatal error, not as a retry signal: the handler answers the
caller with the 500 `Failed to save message`, leaves the store unchanged,
and generates no further code. -/
theorem send_insert_conflict_fatal (s : Store) (codes : Nat → String)
    (now : Nat) (t a m : String) (ht : t ≠ "") (ha : a ≠ "") (hm : m ≠ "")
    (hlen : ¬ m.length > 10000)
    (hconflict : s.any (fun r0 => r0.code ==
      codes (loopGo s codes 0 5).1) = true) :
    (sendHandler s codes now t a m).1 = .dbError "Failed to save message" ∧
    (sendHandler s codes now t a m).2.1 = s ∧
    ((sendHandler s codes now t a m).1).status = 500 := by
  rw [sendHandler, if_neg (by simp [ht, ha, hm]), if_neg hlen, insertRow]
  simp [hconflict, SendOutcome.status]

/-- Witness for the amended C2: in `sC2` every candidate collides, the
insert is rejected, and the caller sees the 500. -/
theorem send_insert_conflict_fatal_witness :
    (sendHandler sC2 codesA 0 "t" "a" "hello").1 =
      .dbError "Failed to save message" :=
  (send_insert_conflict_fatal sC2 codesA 0 "t" "a" "hello" (by decide)
      (by decide) (by decide) (by decide) (by decide)).1

/-- **C8** — once a client's hit count within a live window has reached 5,
a further receive attempt from that client inside the window is answered
with the 429 rate-limit payload and performs no store access at all. -/
theorem receive_rate_limit_blocks_store (l : Limiter) (s : Store)
    (client : String) (now : Nat) (code : String) (e : LimiterEntry)
    (hfind : l.find? (fun e0 => e0.client == client) = some e)
    (hwin : now < e.resetAt) (hcount : 5 ≤ e.count) :
    (receiveRoute l s client now code).1 = .rateLimited false limitWarning ∧
    ((receiveRoute l s client now code).1).status = 429 ∧
    (receiveRoute l s client now code).2.2 = [] := by
  have hhit : (limiterHit l client now).1 = e.count + 1 := by
    rw [limiterHit, hfind]
    simp [hwin]
  rw [receiveRoute, if_pos (by rw [hhit, maxHits]; omega)]
  exact ⟨rfl, rfl, rfl⟩

/-- Witness for C8: a client that already made 5 attempts in the current
window is rejected on the 6th with the configured payload and an empty
store-access trace. -/
theorem receive_rate_limit_blocks_store_witness :
    (receiveRoute [⟨"10.0.0.1", 5, 60000⟩] [mkRow 1 "AAAAAA0"] "10.0.0.1"
        30000 "AAAAAA0").1 = .rateLimited false limitWarning ∧
    (receiveRoute [⟨"10.0.0.1", 5, 60000⟩] [mkRow 1 "AAAAAA0"] "10.0.0.1"
        30000 "AAAAAA0").2.2 = [] := by
  have h := receive_rate_limit_blocks_store [⟨"10.0.0.1", 5, 60000⟩]
    [mkRow 1 "AAAAAA0"] "10.0.0.1" 30000 "AAAAAA0" ⟨"10.0.0.1", 5, 60000⟩
    (by decide) (by decide) (by decide)
  exact ⟨h.1, h.2.2⟩

/-- The `requireAdmin` gate passes iff the configured key is a non-empty
value and the `x-admin-key` header equals it exactly. -/
theorem requireAdmin_iff (adminKey header : Option String) :
    requireAdmin adminKey header = true ↔
      ∃ k, adminKey = some k ∧ k ≠ "" ∧ header = some k := by
  cases adminKey with
  | none => simp [requireAdmin, truthy]
  | some k =>
    cases header with
    | none => simp [requireAdmin, truthy]
    | some v =>
      simp only [requireAdmin, truthy, Bool.and_eq_true, bne_iff_ne,
        beq_iff_eq, Option.some.injEq]
      constructor
      · rintro ⟨hk, hv⟩
        exact ⟨k, rfl, hk, hv⟩
      · rintro ⟨k2, hk2, hne2, hv2⟩
        cases hk2
        exact ⟨hne2, hv2⟩

/-- **C9** — an admin request (list or delete) succeeds iff the configured
admin key is a non-empty value and the `x-admin-key` header equals it
exactly; when `ADMIN_KEY` is unset or empty every admin request is answered
with the 401 `Unauthorized`, whatever the header — including a request that
supplies no header at all (a missing header never matches an unset key). -/
theorem admin_auth_gate (adminKey header : Option String) (s : Store)
    (id : Nat) :
    ((∃ rows, (adminList adminKey header s).1 = .ok rows) ↔
      (∃ k, adminKey = some k ∧ k ≠ "" ∧ header = some k)) ∧
    (((adminDelete adminKey header s id).1 = .ok) ↔
      (∃ k, adminKey = some k ∧ k ≠ "" ∧ header = some k)) ∧
    ((adminKey = none ∨ adminKey = some "") →
      (adminList adminKey header s).1 = .unauthorized "Unauthorized" ∧
      (adminDelete adminKey header s id).1 = .unauthorized "Unauthorized" ∧
      (adminList adminKey none s).1 = .unauthorized "Unauthorized" ∧
      (adminDelete adminKey none s id).1 = .unauthorized "Unauthorized") := by
  have hgate := requireAdmin_iff adminKey header
  have hfail : (adminKey = none ∨ adminKey = some "") →
      ∀ hd, requireAdmin adminKey hd = false := by
    rintro (h | h) hd <;> subst h <;>
      cases hd <;> simp [requireAdmin, truthy]
  refine ⟨?_, ?_, ?_⟩
  · rw [← hgate]
    cases hra : requireAdmin adminKey header <;>
      simp [adminList, hra]
  · rw [← hgate]
    cases hra : requireAdmin adminKey header <;>
      simp [adminDelete, hra]
  · intro h
    refine ⟨?_, ?_, ?_, ?_⟩ <;>
      simp [adminList, adminDelete, hfail h header, hfail h none]

/-- Witness for C9: with the key unset both routes reject a header-less
request; an empty configured key rejects even a matching empty header; a
matching non-empty key passes. -/
theorem admin_auth_gate_witness :
    (adminList none none ([] : Store)).1 = .unauthorized "Unauthorized" ∧
    (adminDelete (some "") (some "") ([] : Store) 1).1 =
      .unauthorized "Unauthorized" ∧
    (adminDelete (some "k1") (some "k1") ([] : Store) 1).1 = .ok := by
  have h1 := admin_auth_gate none none ([] : Store) 1
  have h2 := admin_auth_gate (some "") (some "") ([] : Store) 1
  have h3 := admin_auth_gate (some "k1") (some "k1") ([] : Store) 1
  exact ⟨(h1.2.2 (Or.inl rfl)).1,
    (h2.2.2 (Or.inr rfl)).2.1,
    h3.2.1.mpr ⟨"k1", rfl, by decide, rfl⟩⟩

/-- **C10** — an authorized admin delete for an id borne by no row answers
`{ok:true}` and leaves the store as it was; the response is the same `.ok`
the route gives for any store, so deleting an absent id is
indistinguishable from deleting a present one. -/
theorem admin_delete_absent_ok (adminKey header : Option String) (s : Store)
    (id : Nat) (hauth : requireAdmin adminKey header = true)
    (habsent : ∀ r ∈ s, r.id ≠ id) :
    adminDelete adminKey header s id = (.ok, s, [.write]) ∧
    (∀ s2 : Store, (adminDelete adminKey header s2 id).1 = .ok) := by
  constructor
  · rw [adminDelete, if_pos hauth]
    have hself : s.filter (fun r => !(r.id == id)) = s := by
      rw [List.filter_eq_self]
      intro r hr
      simpa using habsent r hr
    rw [hself]
  · intro s2
    rw [adminDelete, if_pos hauth]

/-- Witness for C10: deleting id 2 from a store holding only id 1 answers
`{ok:true}` with the store unchanged. -/
theorem admin_delete_absent_ok_witness :
    adminDelete (some "k1") (some "k1") [mkRow 1 "AAAAAA0"] 2 =
      (.ok, [mkRow 1 "AAAAAA0"], [.write]) :=
  (admin_delete_absent_ok (some "k1") (some "k1") [mkRow 1 "AAAAAA0"] 2
      (by decide) (by decide)).1

end QuickBackend
